import Mathlib

/-!
Verification of the Conway generation engine of the conway_coro repository.

The repository holds three behaviourally equivalent variants of the same
engine:

* src/conway/src/prev/main.rs  — closures returning the new cell state,
  collected into a list and then written back (collect-then-assemble);
* src/conway/src/prev/main_.rs — closures writing the new cell state
  directly into the next grid (direct write);
* src/src/main.rs              — one cooperative coroutine per row
  (cooperative per-row variant), plus the cycle detector, the pattern
  operations and the cell toggle shared with patterns.rs.

The grid is a 52 x 52 boolean matrix (type TGrid in the sources); rows and
columns 0 and 51 form a sentinel border, the active area is rows and
columns 1..50.  We embed a grid as a total function Nat -> Nat -> Bool;
every grid the program builds is false outside the active area, which the
development proves where needed.

The standard-library hash (std DefaultHasher) used by hash_grid and by
apply_random_pattern is not part of the repository; every definition that
needs it is parameterised by an arbitrary hash function, so the theorems
hold for the real hash in particular.
-/

namespace ConwayCoro

/-- A grid, indexed by row then column; cells outside the 52 x 52 board are
modelled as permanently dead. -/
abbrev TGrid := Nat → Nat → Bool

/-- The all-dead grid, `[[false; 52]; 52]` in the sources. -/
def emptyGrid : TGrid := fun _ _ => false

/-- Writing a single cell: `grid[r][c] = b`. -/
def updateCell (g : TGrid) (r c : Nat) (b : Bool) : TGrid :=
  fun i j => if i = r ∧ j = c then b else g i j

/-- The neighbor-counting loop shared by all variants:
`for (nr, nc) in neighbors: if grid[nr][nc] then count += 1`. -/
def countNeighbors (g : TGrid) (l : List (Nat × Nat)) : Nat :=
  l.foldl (fun count nc => if g nc.1 nc.2 then count + 1 else count) 0

/-- Neighbor list of src/conway/src/prev/main.rs (create_cell_function) and
src/src/main.rs (row_coroutine), in source order. -/
def neighborsA (row col : Nat) : List (Nat × Nat) :=
  [(row - 1, col - 1), (row - 1, col), (row - 1, col + 1),
   (row, col - 1),                     (row, col + 1),
   (row + 1, col - 1), (row + 1, col), (row + 1, col + 1)]

/-- Neighbor list of src/conway/src/prev/main_.rs (create_cell_fn), in its
(different) source order. -/
def neighborsB (row col : Nat) : List (Nat × Nat) :=
  [(row - 1, col - 1), (row - 1, col), (row - 1, col + 1), (row, col - 1),
   (row + 1, col - 1), (row + 1, col), (row + 1, col + 1), (row, col + 1)]

/-- src/conway/src/prev/main.rs, create_cell_function: count the Moore
neighbors of (row, col) and apply Conway's rules to the snapshot. -/
def create_cell_function (row col : Nat) (grid : TGrid) : Bool :=
  match grid row col, countNeighbors grid (neighborsA row col) with
  | true, 2 => true
  | true, 3 => true
  | false, 3 => true
  | _, _ => false

/-- src/conway/src/prev/main_.rs, create_cell_fn: same rule computed from
neighborsB, written directly into the next grid. -/
def create_cell_fn (row col : Nat) (current_grid : TGrid) (next_grid : TGrid) : TGrid :=
  updateCell next_grid row col
    (match current_grid row col, countNeighbors current_grid (neighborsB row col) with
     | true, 2 => true
     | true, 3 => true
     | false, 3 => true
     | _, _ => false)

/-- src/src/main.rs, row_coroutine: the next state of cell
(row_index, col), computed from the current-grid snapshot. -/
def row_coroutine_next_state (row_index col : Nat) (grid : TGrid) : Bool :=
  match grid row_index col, countNeighbors grid (neighborsA row_index col) with
  | true, 2 => true
  | true, 3 => true
  | false, 3 => true
  | _, _ => false

/-- The row-major list of active coordinates, rows 1..50 outer, columns
1..50 inner — the iteration order of all three generation loops. -/
def activeCoords : List (Nat × Nat) :=
  (List.range 50).flatMap (fun i => (List.range 50).map (fun j => (i + 1, j + 1)))

/-- Folding a family of per-cell writes over a coordinate list, starting
from a given next-grid buffer. -/
def writeList (f : Nat → Nat → Bool) (l : List (Nat × Nat)) (g0 : TGrid) : TGrid :=
  l.foldl (fun g rc => updateCell g rc.1 rc.2 (f rc.1 rc.2)) g0

/-- src/conway/src/prev/main.rs, update_generation: run all 2500 cell
closures against the snapshot, collect the results, clear next_grid, then
write the results back in the same row-major order. -/
def update_generation_fns (grid : TGrid) : TGrid :=
  let results : List Bool := activeCoords.map (fun rc => create_cell_function rc.1 rc.2 grid)
  (activeCoords.zip results).foldl (fun ng p => updateCell ng p.1.1 p.1.2 p.2) emptyGrid

/-- src/conway/src/prev/main_.rs, update_generation: clear next_grid, then
run all 2500 cell closures, each writing directly into next_grid. -/
def update_generation_direct (grid : TGrid) : TGrid :=
  activeCoords.foldl (fun ng rc => create_cell_fn rc.1 rc.2 grid ng) emptyGrid

/-- One full pass of a row coroutine (src/src/main.rs, row_coroutine):
`for col in 1..=50 { next[row_index][col] = next_state }`, reading only the
current-grid snapshot. -/
def row_coroutine_pass (grid : TGrid) (row_index : Nat) (next : TGrid) : TGrid :=
  (List.range 50).foldl
    (fun acc j => updateCell acc row_index (j + 1) (row_coroutine_next_state row_index (j + 1) grid))
    next

/-- src/src/main.rs, update_generation: clear next_grid, let the 50 row
coroutines (rows 1..50) each complete a pass against the snapshot, then
swap next into current. -/
def update_generation_coro (grid : TGrid) : TGrid :=
  (List.range 50).foldl (fun ng i => row_coroutine_pass grid (i + 1) ng) emptyGrid

/-! ### Pattern catalog (src/src/patterns.rs) -/

/-- A named pattern: src/src/patterns.rs, struct Pattern. -/
structure Pattern where
  name : String
  cells : List (Nat × Nat)

/-- src/src/patterns.rs, PATTERNS: the compiled-in pattern catalog. -/
def PATTERNS : List Pattern :=
  [{ name := "Glider", cells := [(6, 7), (7, 8), (8, 6), (8, 7), (8, 8)] },
   { name := "Blinker", cells := [(25, 24), (25, 25), (25, 26)] },
   { name := "Toad", cells := [(24, 25), (24, 26), (24, 27), (25, 24), (25, 25), (25, 26)] },
   { name := "Beacon",
     cells := [(10, 10), (10, 11), (11, 10), (11, 11), (12, 12), (12, 13), (13, 12), (13, 13)] },
   { name := "Pulsar",
     cells := [(20, 24), (20, 25), (20, 26), (20, 30), (20, 31), (20, 32),
               (22, 22), (22, 27), (22, 29), (22, 34),
               (23, 22), (23, 27), (23, 29), (23, 34),
               (24, 22), (24, 27), (24, 29), (24, 34),
               (25, 24), (25, 25), (25, 26), (25, 30), (25, 31), (25, 32),
               (27, 24), (27, 25), (27, 26), (27, 30), (27, 31), (27, 32),
               (28, 22), (28, 27), (28, 29), (28, 34),
               (29, 22), (29, 27), (29, 29), (29, 34),
               (30, 22), (30, 27), (30, 29), (30, 34),
               (32, 24), (32, 25), (32, 26), (32, 30), (32, 31), (32, 32)] },
   { name := "R-pentomino", cells := [(25, 25), (25, 26), (24, 26), (26, 25), (26, 24)] },
   { name := "Gosper Glider Gun",
     cells := [(5, 1), (5, 2), (6, 1), (6, 2),
               (5, 11), (6, 11), (7, 11), (4, 12), (8, 12), (3, 13), (9, 13),
               (3, 14), (9, 14), (6, 15), (4, 16), (8, 16), (5, 17), (6, 17),
               (7, 17), (6, 18), (3, 21), (4, 21), (5, 21), (3, 22), (4, 22),
               (5, 22), (2, 23), (6, 23), (1, 25), (2, 25), (6, 25), (7, 25),
               (3, 35), (4, 35), (3, 36), (4, 36)] }]

/-- src/src/patterns.rs, apply_pattern: clear the grid, then stamp every
listed cell whose coordinates lie in the active range 1..50. -/
def apply_pattern (cells : List (Nat × Nat)) : TGrid :=
  cells.foldl
    (fun g rc =>
      if 1 ≤ rc.1 ∧ rc.1 ≤ 50 ∧ 1 ≤ rc.2 ∧ rc.2 ≤ 50 then updateCell g rc.1 rc.2 true else g)
    emptyGrid

/-- One step of the linear congruential generator of apply_random_pattern:
`seed.wrapping_mul(1103515245).wrapping_add(12345)` on u64. -/
def lcg_step (s : Nat) : Nat := (s * 1103515245 + 12345) % 2 ^ 64

/-- n-fold iteration of lcg_step. -/
def lcgIter (s : Nat) : Nat → Nat
  | 0 => s
  | n + 1 => lcg_step (lcgIter s n)

/-- The loop body of apply_random_pattern for row i+1, column j+1:
advance the LCG state and write `(seed % 3) == 0` into the cell. -/
def random_cell_step (i : Nat) (gs2 : TGrid × Nat) (j : Nat) : TGrid × Nat :=
  let seed := lcg_step gs2.2
  (updateCell gs2.1 (i + 1) (j + 1) (seed % 3 == 0), seed)

/-- The row loop of apply_random_pattern: fill columns 1..50 of row
i+1. -/
def random_row_step (gs : TGrid × Nat) (i : Nat) : TGrid × Nat :=
  (List.range 50).foldl (random_cell_step i) gs

/-- src/src/patterns.rs, apply_random_pattern: clear the grid, hash the
32-bit seed into a 64-bit state (the std DefaultHasher is outside the
repository, so the hash is an arbitrary parameter here, truncated to
64 bits), then for every active cell in row-major order advance the state
with lcg_step and set the cell alive iff the state is divisible by 3. -/
def apply_random_pattern (hashU32 : Nat → Nat) (seed_value : Nat) : TGrid :=
  ((List.range 50).foldl random_row_step (emptyGrid, hashU32 seed_value % 2 ^ 64)).1

/-! ### Engine state and operations (src/src/main.rs, struct GameOfLife) -/

/-- The engine-relevant fields of struct GameOfLife in src/src/main.rs.
The UI-only fields (colors, timers, the tokio handles) and the separate
current/next buffers (whose committed contents the struct mirrors in its
cached `grid`) are omitted: every claim is about the committed grid, the
counters and the cycle history. -/
structure GameState where
  grid : TGrid
  is_running : Bool
  generation : Nat
  selected_pattern : Nat
  grid_history : List Nat
  history_count : Nat

/-- GameOfLife::default(): empty grid, generation 0, history of ten zero
hashes, counter 0, not running, pattern 0 selected. -/
def initState : GameState :=
  { grid := emptyGrid
    is_running := false
    generation := 0
    selected_pattern := 0
    grid_history := List.replicate 10 0
    history_count := 0 }

/-- The cycle-detector core of check_for_cycle (src/src/main.rs lines
228-237): given the history array, the insertion counter and the current
checksum, either report a cycle (history already holds the checksum) or
insert at the circular position counter mod 10 and bump the counter.
Returns (cycle?, history, counter). -/
def observe (grid_history : List Nat) (history_count : Nat) (current_hash : Nat) :
    Bool × List Nat × Nat :=
  if grid_history.contains current_hash then (true, grid_history, history_count)
  else (false, grid_history.set (history_count % 10) current_hash, history_count + 1)

/-- src/src/main.rs, check_for_cycle: observe the hash of the committed
grid.  hash_grid (a DefaultHasher over the active area) lives in std, so
it enters as the arbitrary parameter hashG. -/
def check_for_cycle (hashG : TGrid → Nat) (s : GameState) : Bool × GameState :=
  let r := observe s.grid_history s.history_count (hashG s.grid)
  (r.1, { s with grid_history := r.2.1, history_count := r.2.2 })

/-- src/src/main.rs, update_generation, with the detector verdict exposed:
commit the coroutines' next grid, bump the generation counter, run
check_for_cycle, and stop the run on a detected cycle. -/
def update_generation_checked (hashG : TGrid → Nat) (s : GameState) : Bool × GameState :=
  let s1 : GameState :=
    { s with grid := update_generation_coro s.grid, generation := s.generation + 1 }
  let r := check_for_cycle hashG s1
  (r.1, if r.1 then { r.2 with is_running := false } else r.2)

/-- src/src/main.rs, update_generation: the state after one tick. -/
def update_generation (hashG : TGrid → Nat) (s : GameState) : GameState :=
  (update_generation_checked hashG s).2

/-- Iterated ticks of the engine. -/
def updateIter (hashG : TGrid → Nat) : Nat → GameState → GameState
  | 0, s => s
  | n + 1, s => updateIter hashG n (update_generation hashG s)

/-- src/src/main.rs, clear_grid: all-dead grid, generation 0, history
reset to ten zeros, counter 0. -/
def clear_grid (s : GameState) : GameState :=
  { s with grid := emptyGrid
           generation := 0
           grid_history := List.replicate 10 0
           history_count := 0 }

/-- src/src/main.rs, apply_selected_pattern: if the selected index is in
the catalog, stamp that pattern and reset generation and history;
otherwise (the `if let` has no else branch) do nothing. -/
def apply_selected_pattern (s : GameState) : GameState :=
  match PATTERNS[s.selected_pattern]? with
  | some pattern =>
      { s with grid := apply_pattern pattern.cells
               generation := 0
               grid_history := List.replicate 10 0
               history_count := 0 }
  | none => s

/-- The configuration-error type named by the spec for load_pattern. -/
inductive PatternNotFound
  | patternNotFound
deriving DecidableEq

/-- The return value of apply_selected_pattern together with the new
state.  The Rust method returns () — it has no error path — so the
embedded result is Except.ok in every case. -/
def apply_selected_pattern_result (s : GameState) : Except PatternNotFound GameState :=
  Except.ok (apply_selected_pattern s)

/-- src/src/main.rs, apply_random_pattern_async: seed
apply_random_pattern with the current generation counter, then reset
generation and history. -/
def apply_random_pattern_async (hashU32 : Nat → Nat) (s : GameState) : GameState :=
  { s with grid := apply_random_pattern hashU32 s.generation
           generation := 0
           grid_history := List.replicate 10 0
           history_count := 0 }

/-- src/src/main.rs, toggle_cell_async: flip one cell if both coordinates
lie in the active range 1..50, otherwise do nothing. -/
def toggle_cell_async (row col : Nat) (s : GameState) : GameState :=
  if 1 ≤ row ∧ row ≤ 50 ∧ 1 ≤ col ∧ col ≤ 50 then
    { s with grid := updateCell s.grid row col (! s.grid row col) }
  else s

/-- The engine states reachable through the public operations, for a fixed
grid hash (hashG, for check_for_cycle) and a fixed seed hash (hashU32, for
apply_random_pattern).  selected_pattern and is_running may be set freely
by the UI. -/
inductive Reachable (hashG : TGrid → Nat) (hashU32 : Nat → Nat) : GameState → Prop
  | init : Reachable hashG hashU32 initState
  | step {s : GameState} :
      Reachable hashG hashU32 s → Reachable hashG hashU32 (update_generation hashG s)
  | clear {s : GameState} :
      Reachable hashG hashU32 s → Reachable hashG hashU32 (clear_grid s)
  | pattern {s : GameState} :
      Reachable hashG hashU32 s → Reachable hashG hashU32 (apply_selected_pattern s)
  | random {s : GameState} :
      Reachable hashG hashU32 s → Reachable hashG hashU32 (apply_random_pattern_async hashU32 s)
  | toggle {s : GameState} (row col : Nat) :
      Reachable hashG hashU32 s → Reachable hashG hashU32 (toggle_cell_async row col s)
  | select {s : GameState} (i : Nat) :
      Reachable hashG hashU32 s → Reachable hashG hashU32 { s with selected_pattern := i }
  | setRunning {s : GameState} (b : Bool) :
      Reachable hashG hashU32 s → Reachable hashG hashU32 { s with is_running := b }

/-- All four border lines of the 52 x 52 board are dead. -/
def borderDead (g : TGrid) : Prop :=
  ∀ i, i ≤ 51 → (g 0 i = false ∧ g 51 i = false ∧ g i 0 = false ∧ g i 51 = false)

/-- Only active-area cells (rows and columns 1..50) may be alive. -/
def activeOnly (g : TGrid) : Prop :=
  ∀ r c, ¬(1 ≤ r ∧ r ≤ 50 ∧ 1 ≤ c ∧ c ≤ 50) → g r c = false

/-- The Moore neighbor count exactly as the claims enumerate it:
(r-1, c-1), (r-1, c), (r-1, c+1), (r, c-1), (r, c+1), (r+1, c-1),
(r+1, c), (r+1, c+1). -/
def mooreCount (g : TGrid) (r c : Nat) : Nat :=
  (if g (r - 1) (c - 1) then 1 else 0) + (if g (r - 1) c then 1 else 0) +
    (if g (r - 1) (c + 1) then 1 else 0) + (if g r (c - 1) then 1 else 0) +
    (if g r (c + 1) then 1 else 0) + (if g (r + 1) (c - 1) then 1 else 0) +
    (if g (r + 1) c then 1 else 0) + (if g (r + 1) (c + 1) then 1 else 0)

/-- The horizontal blinker: live cells at row 25, columns 24-26. -/
def blinkerHorizontal : TGrid := fun r c => decide (r = 25 ∧ (c = 24 ∨ c = 25 ∨ c = 26))

/-- The vertical blinker: live cells at rows 24-26, column 25. -/
def blinkerVertical : TGrid := fun r c => decide ((r = 24 ∨ r = 25 ∨ r = 26) ∧ c = 25)

/-- The engine state right after the user selects and applies the Blinker
pattern (index 1 of the catalog). -/
def blinkerSeeded : GameState := apply_selected_pattern { initState with selected_pattern := 1 }

/-! ### Pointwise characterization of the three generation variants -/

theorem updateCell_same (g : TGrid) (r c : Nat) (b : Bool) :
    updateCell g r c b r c = b := by
  simp [updateCell]

theorem updateCell_other (g : TGrid) (r c i j : Nat) (b : Bool)
    (h : ¬(i = r ∧ j = c)) : updateCell g r c b i j = g i j := by
  simp [updateCell, h]

theorem writeList_apply (f : Nat → Nat → Bool) :
    ∀ (l : List (Nat × Nat)) (g0 : TGrid) (r c : Nat),
      writeList f l g0 r c = if (r, c) ∈ l then f r c else g0 r c := by
  intro l
  induction l with
  | nil => intro g0 r c; simp [writeList]
  | cons a t ih =>
    intro g0 r c
    have hstep : writeList f (a :: t) g0 = writeList f t (updateCell g0 a.1 a.2 (f a.1 a.2)) := rfl
    rw [hstep, ih]
    by_cases hmem : (r, c) ∈ t
    · simp [hmem]
    · by_cases heq : (r, c) = a
      · subst heq
        simp [hmem, updateCell]
      · have h1 : ¬(r = a.1 ∧ c = a.2) := by
          intro hrc
          exact heq (Prod.ext hrc.1 hrc.2)
        simp [hmem, heq, updateCell_other g0 a.1 a.2 r c _ h1]

theorem mem_activeCoords (r c : Nat) :
    (r, c) ∈ activeCoords ↔ (1 ≤ r ∧ r ≤ 50 ∧ 1 ≤ c ∧ c ≤ 50) := by
  simp only [activeCoords, List.mem_flatMap, List.mem_map, List.mem_range]
  constructor
  · rintro ⟨i, hi, j, hj, hpair⟩
    have hr : r = i + 1 := (Prod.mk.injEq _ _ _ _ ▸ hpair).1.symm
    have hc : c = j + 1 := (Prod.mk.injEq _ _ _ _ ▸ hpair).2.symm
    omega
  · rintro ⟨h1, h2, h3, h4⟩
    exact ⟨r - 1, by omega, c - 1, by omega, by
      have : r - 1 + 1 = r := by omega
      have : c - 1 + 1 = c := by omega
      simp [Prod.ext_iff]; omega⟩

/-- Unfolding the neighbor-count fold to a sum of indicator terms. -/
theorem countNeighbors_go (g : TGrid) :
    ∀ (l : List (Nat × Nat)) (n : Nat),
      l.foldl (fun count nc => if g nc.1 nc.2 then count + 1 else count) n =
        n + (l.map (fun nc => if g nc.1 nc.2 then 1 else 0)).sum := by
  intro l
  induction l with
  | nil => intro n; simp
  | cons a t ih =>
    intro n
    simp only [List.foldl_cons, List.map_cons, List.sum_cons, ih]
    by_cases h : g a.1 a.2
    · simp [h]; omega
    · simp [h]

/-- The two source neighbor orders count the same set of eight cells. -/
theorem countNeighbors_A_eq_B (g : TGrid) (row col : Nat) :
    countNeighbors g (neighborsA row col) = countNeighbors g (neighborsB row col) := by
  simp only [countNeighbors, neighborsA, neighborsB, countNeighbors_go]
  simp only [List.map_cons, List.map_nil, List.sum_cons, List.sum_nil]
  ring

theorem zip_self_map {α β : Type} (f : α → β) :
    ∀ l : List α, l.zip (l.map f) = l.map (fun a => (a, f a))
  | [] => rfl
  | a :: t => by simp only [List.zip_cons_cons, List.map_cons, zip_self_map f t]

theorem update_generation_fns_eq_writeList (grid : TGrid) :
    update_generation_fns grid =
      writeList (fun r c => create_cell_function r c grid) activeCoords emptyGrid := by
  unfold update_generation_fns writeList
  dsimp only
  rw [zip_self_map (fun rc => create_cell_function rc.1 rc.2 grid) activeCoords]
  rw [List.foldl_map]

theorem update_generation_direct_eq_writeList (grid : TGrid) :
    update_generation_direct grid =
      writeList (fun r c =>
        match grid r c, countNeighbors grid (neighborsB r c) with
        | true, 2 => true
        | true, 3 => true
        | false, 3 => true
        | _, _ => false) activeCoords emptyGrid := rfl

theorem writeList_append (f : Nat → Nat → Bool) (l1 l2 : List (Nat × Nat)) (g0 : TGrid) :
    writeList f (l1 ++ l2) g0 = writeList f l2 (writeList f l1 g0) := by
  simp [writeList, List.foldl_append]

theorem coro_rows_fold_eq_writeList (grid : TGrid) :
    ∀ (l : List Nat) (g0 : TGrid),
      l.foldl (fun ng i => row_coroutine_pass grid (i + 1) ng) g0 =
        writeList (fun r c => row_coroutine_next_state r c grid)
          (l.flatMap (fun i => (List.range 50).map (fun j => (i + 1, j + 1)))) g0 := by
  intro l
  induction l with
  | nil => intro g0; rfl
  | cons a t ih =>
    intro g0
    simp only [List.foldl_cons, List.flatMap_cons, writeList_append]
    rw [ih]
    congr 1

theorem update_generation_coro_eq_writeList (grid : TGrid) :
    update_generation_coro grid =
      writeList (fun r c => row_coroutine_next_state r c grid) activeCoords emptyGrid := by
  unfold update_generation_coro activeCoords
  exact coro_rows_fold_eq_writeList grid (List.range 50) emptyGrid

theorem update_generation_coro_apply (g : TGrid) (r c : Nat) :
    update_generation_coro g r c =
      if 1 ≤ r ∧ r ≤ 50 ∧ 1 ≤ c ∧ c ≤ 50 then create_cell_function r c g else false := by
  rw [update_generation_coro_eq_writeList, writeList_apply]
  by_cases h : 1 ≤ r ∧ r ≤ 50 ∧ 1 ≤ c ∧ c ≤ 50
  · rw [if_pos ((mem_activeCoords r c).mpr h), if_pos h]; rfl
  · rw [if_neg (fun hm => h ((mem_activeCoords r c).mp hm)), if_neg h]; rfl

theorem update_generation_fns_apply (g : TGrid) (r c : Nat) :
    update_generation_fns g r c =
      if 1 ≤ r ∧ r ≤ 50 ∧ 1 ≤ c ∧ c ≤ 50 then create_cell_function r c g else false := by
  rw [update_generation_fns_eq_writeList, writeList_apply]
  by_cases h : 1 ≤ r ∧ r ≤ 50 ∧ 1 ≤ c ∧ c ≤ 50
  · rw [if_pos ((mem_activeCoords r c).mpr h), if_pos h]
  · rw [if_neg (fun hm => h ((mem_activeCoords r c).mp hm)), if_neg h]; rfl

theorem update_generation_direct_apply (g : TGrid) (r c : Nat) :
    update_generation_direct g r c =
      if 1 ≤ r ∧ r ≤ 50 ∧ 1 ≤ c ∧ c ≤ 50 then create_cell_function r c g else false := by
  rw [update_generation_direct_eq_writeList, writeList_apply]
  by_cases h : 1 ≤ r ∧ r ≤ 50 ∧ 1 ≤ c ∧ c ≤ 50
  · rw [if_pos ((mem_activeCoords r c).mpr h), if_pos h]
    show (match g r c, countNeighbors g (neighborsB r c) with
          | true, 2 => true
          | true, 3 => true
          | false, 3 => true
          | _, _ => false) = create_cell_function r c g
    rw [← countNeighbors_A_eq_B]
    rfl
  · rw [if_neg (fun hm => h ((mem_activeCoords r c).mp hm)), if_neg h]; rfl

/-- C3: all three scheduling variants — the collect-then-assemble closures
of prev/main.rs, the direct-write closures of prev/main_.rs and the
per-row coroutines of src/main.rs — compute bit-identical next grids from
the same starting snapshot. -/
theorem scheduling_variants_equivalent (g : TGrid) :
    update_generation_fns g = update_generation_direct g ∧
    update_generation_direct g = update_generation_coro g := by
  constructor
  · funext r c
    rw [update_generation_fns_apply, update_generation_direct_apply]
  · funext r c
    rw [update_generation_direct_apply, update_generation_coro_apply]

theorem countNeighbors_eq_moore (g : TGrid) (r c : Nat) :
    countNeighbors g (neighborsA r c) = mooreCount g r c := by
  simp only [countNeighbors, neighborsA, countNeighbors_go, List.map_cons, List.map_nil,
    List.sum_cons, List.sum_nil, mooreCount]
  ring

theorem life_rule_iff (alive : Bool) (n : Nat) :
    ((match alive, n with
      | true, 2 => true
      | true, 3 => true
      | false, 3 => true
      | _, _ => false) = true) ↔
      ((alive = true ∧ (n = 2 ∨ n = 3)) ∨ (alive = false ∧ n = 3)) := by
  cases alive <;> rcases n with _ | _ | _ | _ | n <;> simp

/-- C2: for every snapshot and every active cell, one generation step sets
the cell alive iff it was alive with exactly 2 or 3 live Moore neighbors,
or dead with exactly 3 live Moore neighbors; every other combination
leaves it dead. -/
theorem step_follows_conway_rule (g : TGrid) (r c : Nat)
    (hr1 : 1 ≤ r) (hr2 : r ≤ 50) (hc1 : 1 ≤ c) (hc2 : c ≤ 50) :
    update_generation_coro g r c = true ↔
      ((g r c = true ∧ (mooreCount g r c = 2 ∨ mooreCount g r c = 3)) ∨
       (g r c = false ∧ mooreCount g r c = 3)) := by
  rw [update_generation_coro_apply, if_pos ⟨hr1, hr2, hc1, hc2⟩]
  unfold create_cell_function
  rw [countNeighbors_eq_moore]
  exact life_rule_iff (g r c) (mooreCount g r c)

/-- Witness for C2 at the horizontal blinker: the dead cell (24, 25) has
exactly three live neighbors and is born. -/
theorem step_follows_conway_rule_witness :
    update_generation_coro blinkerHorizontal 24 25 = true :=
  (step_follows_conway_rule blinkerHorizontal 24 25 (by decide) (by decide) (by decide)
      (by decide)).mpr (by decide)

/-! ### Pattern stamping and the pseudo-random fill, pointwise -/

theorem apply_pattern_fold (cells : List (Nat × Nat)) :
    ∀ (g0 : TGrid) (r c : Nat),
      cells.foldl
          (fun g rc =>
            if 1 ≤ rc.1 ∧ rc.1 ≤ 50 ∧ 1 ≤ rc.2 ∧ rc.2 ≤ 50 then updateCell g rc.1 rc.2 true else g)
          g0 r c =
        if (r, c) ∈ cells ∧ (1 ≤ r ∧ r ≤ 50 ∧ 1 ≤ c ∧ c ≤ 50) then true else g0 r c := by
  induction cells with
  | nil => intro g0 r c; simp
  | cons a t ih =>
    intro g0 r c
    rw [List.foldl_cons, ih]
    by_cases hmem : (r, c) ∈ t ∧ (1 ≤ r ∧ r ≤ 50 ∧ 1 ≤ c ∧ c ≤ 50)
    · rw [if_pos hmem, if_pos ⟨List.mem_cons_of_mem a hmem.1, hmem.2⟩]
    · rw [if_neg hmem]
      by_cases heq : (r, c) = a
      · subst heq
        by_cases hrange : 1 ≤ r ∧ r ≤ 50 ∧ 1 ≤ c ∧ c ≤ 50
        · rw [if_pos hrange, if_pos ⟨List.mem_cons_self _ _, hrange⟩, updateCell_same]
        · rw [if_neg hrange, if_neg (fun hx => hrange hx.2)]
      · have hne : ¬(r = a.1 ∧ c = a.2) := fun hx => heq (Prod.ext hx.1 hx.2)
        have hcond : ¬((r, c) ∈ a :: t ∧ (1 ≤ r ∧ r ≤ 50 ∧ 1 ≤ c ∧ c ≤ 50)) := by
          rintro ⟨hm, hrange⟩
          rcases List.mem_cons.mp hm with h1 | h1
          · exact heq h1
          · exact hmem ⟨h1, hrange⟩
        rw [if_neg hcond]
        by_cases hrange : 1 ≤ a.1 ∧ a.1 ≤ 50 ∧ 1 ≤ a.2 ∧ a.2 ≤ 50
        · rw [if_pos hrange, updateCell_other _ _ _ _ _ _ hne]
        · rw [if_neg hrange]

theorem apply_pattern_apply (cells : List (Nat × Nat)) (r c : Nat) :
    apply_pattern cells r c =
      if (r, c) ∈ cells ∧ (1 ≤ r ∧ r ≤ 50 ∧ 1 ≤ c ∧ c ≤ 50) then true else false := by
  unfold apply_pattern
  rw [apply_pattern_fold]
  rfl

theorem lcgIter_add (s : Nat) (a b : Nat) : lcgIter s (a + b) = lcgIter (lcgIter s a) b := by
  induction b with
  | zero => rfl
  | succ n ih => rw [← Nat.add_assoc, lcgIter, lcgIter, ih]

theorem random_row_fold (i : Nat) :
    ∀ (n : Nat) (g : TGrid) (s : Nat),
      (((List.range n).foldl (random_cell_step i) (g, s)).2 = lcgIter s n) ∧
      (∀ r c,
        ((List.range n).foldl (random_cell_step i) (g, s)).1 r c =
          if r = i + 1 ∧ 1 ≤ c ∧ c ≤ n then (lcgIter s c % 3 == 0) else g r c) := by
  intro n
  induction n with
  | zero =>
    intro g s
    constructor
    · rfl
    · intro r c
      have : ¬(r = i + 1 ∧ 1 ≤ c ∧ c ≤ 0) := by omega
      rw [if_neg this]
      rfl
  | succ n ih =>
    intro g s
    rw [List.range_succ, List.foldl_append, List.foldl_cons, List.foldl_nil]
    rcases ih g s with ⟨ihs, ihg⟩
    constructor
    · show lcg_step (((List.range n).foldl (random_cell_step i) (g, s)).2) = lcgIter s (n + 1)
      rw [ihs]; rfl
    · intro r c
      show updateCell (((List.range n).foldl (random_cell_step i) (g, s)).1) (i + 1) (n + 1)
          (lcg_step (((List.range n).foldl (random_cell_step i) (g, s)).2) % 3 == 0) r c = _
      rw [ihs]
      by_cases hrc : r = i + 1 ∧ c = n + 1
      · rcases hrc with ⟨h1, h2⟩
        subst h1; subst h2
        rw [updateCell_same, if_pos ⟨rfl, by omega, le_refl _⟩]
        rfl
      · rw [updateCell_other _ _ _ _ _ _ hrc, ihg]
        by_cases hin : r = i + 1 ∧ 1 ≤ c ∧ c ≤ n
        · rw [if_pos hin, if_pos ⟨hin.1, hin.2.1, by omega⟩]
        · have : ¬(r = i + 1 ∧ 1 ≤ c ∧ c ≤ n + 1) := by
            rintro ⟨h1, h2, h3⟩
            rcases Nat.lt_or_ge c (n + 1) with h4 | h4
            · exact hin ⟨h1, h2, by omega⟩
            · exact hrc ⟨h1, by omega⟩
          rw [if_neg hin, if_neg this]

theorem random_rows_fold :
    ∀ (m : Nat) (s : Nat),
      (((List.range m).foldl random_row_step (emptyGrid, s)).2 = lcgIter s (50 * m)) ∧
      (∀ r c,
        ((List.range m).foldl random_row_step (emptyGrid, s)).1 r c =
          if 1 ≤ r ∧ r ≤ m ∧ 1 ≤ c ∧ c ≤ 50 then (lcgIter s ((r - 1) * 50 + c) % 3 == 0)
          else false) := by
  intro m
  induction m with
  | zero =>
    intro s
    constructor
    · rfl
    · intro r c
      have : ¬(1 ≤ r ∧ r ≤ 0 ∧ 1 ≤ c ∧ c ≤ 50) := by omega
      rw [if_neg this]
      rfl
  | succ m ih =>
    intro s
    rw [show List.range (m + 1) = List.range m ++ [m] from List.range_succ m,
      List.foldl_append, List.foldl_cons, List.foldl_nil]
    rcases ih s with ⟨ihs, ihg⟩
    set p := (List.range m).foldl random_row_step (emptyGrid, s) with hp
    rcases random_row_fold m 50 p.1 p.2 with ⟨hrs, hrg⟩
    have hstep : random_row_step p m = (List.range 50).foldl (random_cell_step m) (p.1, p.2) := rfl
    constructor
    · rw [hstep, hrs, ihs, ← lcgIter_add]
      have harg : 50 * m + 50 = 50 * (m + 1) := by ring
      rw [harg]
    · intro r c
      rw [hstep, hrg r c, ihs]
      by_cases hrow : r = m + 1 ∧ 1 ≤ c ∧ c ≤ 50
      · rw [if_pos hrow, if_pos (by omega), ← lcgIter_add]
        have harg : 50 * m + c = (r - 1) * 50 + c := by omega
        rw [harg]
      · rw [if_neg hrow, ihg]
        by_cases hin : 1 ≤ r ∧ r ≤ m ∧ 1 ≤ c ∧ c ≤ 50
        · rw [if_pos hin, if_pos (by omega)]
        · rw [if_neg hin, if_neg (by omega)]

theorem apply_random_pattern_apply (hashU32 : Nat → Nat) (seed_value : Nat) (r c : Nat) :
    apply_random_pattern hashU32 seed_value r c =
      if 1 ≤ r ∧ r ≤ 50 ∧ 1 ≤ c ∧ c ≤ 50 then
        (lcgIter (hashU32 seed_value % 2 ^ 64) ((r - 1) * 50 + c) % 3 == 0)
      else false := by
  unfold apply_random_pattern
  rw [(random_rows_fold 50 (hashU32 seed_value % 2 ^ 64)).2 r c]

/-- C4: apply_random_pattern clears the grid and, for each active cell in
row-major order, advances the 64-bit state derived from the hashed seed by
the wrapping LCG step (multiplier 1103515245, increment 12345, modulo
2^64) and sets the cell alive iff the state is divisible by 3; it is
deterministic in the seed.  Cell (r, c) uses the ((r-1)*50 + c)-th LCG
iterate. -/
theorem apply_random_pattern_spec (hashU32 : Nat → Nat) (seed_value : Nat) :
    (∀ r c, 1 ≤ r → r ≤ 50 → 1 ≤ c → c ≤ 50 →
        apply_random_pattern hashU32 seed_value r c =
          (lcgIter (hashU32 seed_value % 2 ^ 64) ((r - 1) * 50 + c) % 3 == 0)) ∧
    (∀ r c, ¬(1 ≤ r ∧ r ≤ 50 ∧ 1 ≤ c ∧ c ≤ 50) →
        apply_random_pattern hashU32 seed_value r c = false) ∧
    (∀ seed2, seed2 = seed_value →
        apply_random_pattern hashU32 seed2 = apply_random_pattern hashU32 seed_value) := by
  refine ⟨?_, ?_, ?_⟩
  · intro r c h1 h2 h3 h4
    rw [apply_random_pattern_apply, if_pos ⟨h1, h2, h3, h4⟩]
  · intro r c h
    rw [apply_random_pattern_apply, if_neg h]
  · intro seed2 h
    rw [h]

/-- Witness for C4: with the zero hash and seed 0, cell (1, 1) uses the
first LCG iterate 12345, which is divisible by 3, so the cell is alive. -/
theorem apply_random_pattern_spec_witness :
    apply_random_pattern (fun _ => 0) 0 1 1 = true := by
  have h := (apply_random_pattern_spec (fun _ => 0) 0).1 1 1 (by decide) (by decide) (by decide)
    (by decide)
  rw [h]
  decide

/-! ### The border-dead invariant over all reachable states -/

theorem emptyGrid_activeOnly : activeOnly emptyGrid := by
  intro r c _
  rfl

theorem update_generation_coro_activeOnly (g : TGrid) :
    activeOnly (update_generation_coro g) := by
  intro r c h
  rw [update_generation_coro_apply, if_neg h]

theorem apply_pattern_activeOnly (cells : List (Nat × Nat)) :
    activeOnly (apply_pattern cells) := by
  intro r c h
  rw [apply_pattern_apply, if_neg (fun hx => h hx.2)]

theorem apply_random_pattern_activeOnly (hashU32 : Nat → Nat) (seed_value : Nat) :
    activeOnly (apply_random_pattern hashU32 seed_value) := by
  intro r c h
  rw [apply_random_pattern_apply, if_neg h]

theorem updateCell_activeOnly {g : TGrid} (hg : activeOnly g) {r c : Nat}
    (hin : 1 ≤ r ∧ r ≤ 50 ∧ 1 ≤ c ∧ c ≤ 50) (b : Bool) :
    activeOnly (updateCell g r c b) := by
  intro i j h
  have hne : ¬(i = r ∧ j = c) := by
    rintro ⟨h1, h2⟩
    subst h1; subst h2
    exact h hin
  rw [updateCell_other _ _ _ _ _ _ hne]
  exact hg i j h

theorem update_generation_grid (hashG : TGrid → Nat) (s : GameState) :
    (update_generation hashG s).grid = update_generation_coro s.grid := by
  unfold update_generation update_generation_checked check_for_cycle
  dsimp only
  split <;> rfl

theorem reachable_activeOnly (hashG : TGrid → Nat) (hashU32 : Nat → Nat) (s : GameState)
    (h : Reachable hashG hashU32 s) : activeOnly s.grid := by
  induction h with
  | init => exact emptyGrid_activeOnly
  | step _ _ =>
    rw [update_generation_grid]
    exact update_generation_coro_activeOnly _
  | clear _ _ => exact emptyGrid_activeOnly
  | pattern hr ih =>
    unfold apply_selected_pattern
    split
    · exact apply_pattern_activeOnly _
    · exact ih
  | random _ _ => exact apply_random_pattern_activeOnly _ _
  | toggle row col hr ih =>
    unfold toggle_cell_async
    split
    · rename_i hin
      exact updateCell_activeOnly ih hin _
    · exact ih
  | select i _ ih => exact ih
  | setRunning b _ ih => exact ih

theorem activeOnly_borderDead {g : TGrid} (h : activeOnly g) : borderDead g := by
  intro i hi
  exact ⟨h 0 i (by omega), h 51 i (by omega), h i 0 (by omega), h i 51 (by omega)⟩

/-- C1: in every reachable engine state — after construction, clear_grid,
apply_pattern / apply_random_pattern, toggle_cell, and every
update_generation commit — all border cells of the committed grid are
dead. -/
theorem border_cells_always_dead (hashG : TGrid → Nat) (hashU32 : Nat → Nat) (s : GameState)
    (h : Reachable hashG hashU32 s) : borderDead s.grid :=
  activeOnly_borderDead (reachable_activeOnly hashG hashU32 s h)

/-- Witness for C1 at the freshly constructed engine. -/
theorem border_cells_always_dead_witness : borderDead initState.grid :=
  border_cells_always_dead (fun _ => 0) (fun _ => 0) initState Reachable.init

/-! ### Cycle detector, pattern loading, toggling, random reseeding -/

theorem contains_iff_mem (l : List Nat) (a : Nat) : l.contains a = true ↔ a ∈ l := by
  simp [List.contains, List.elem_iff]

/-- C5: observe returns true and leaves the 10-entry history and the
counter unchanged iff the checksum already occurs in the history;
otherwise it writes the checksum at index (counter mod 10) and increments
the counter, returning false. -/
theorem observe_spec (grid_history : List Nat) (history_count current_hash : Nat)
    (_hlen : grid_history.length = 10) :
    ((observe grid_history history_count current_hash).1 = true ↔
      current_hash ∈ grid_history) ∧
    (current_hash ∈ grid_history →
      observe grid_history history_count current_hash = (true, grid_history, history_count)) ∧
    (current_hash ∉ grid_history →
      observe grid_history history_count current_hash =
        (false, grid_history.set (history_count % 10) current_hash, history_count + 1)) := by
  unfold observe
  by_cases h : current_hash ∈ grid_history
  · rw [if_pos ((contains_iff_mem _ _).mpr h)]
    exact ⟨by simp [h], fun _ => rfl, fun hn => absurd h hn⟩
  · rw [if_neg (fun hx => h ((contains_iff_mem _ _).mp hx))]
    exact ⟨by simp [h], fun hx => absurd hx h, fun _ => rfl⟩

/-- Witness for C5: checksum 5 is already in the history, so observe
reports a cycle and changes nothing. -/
theorem observe_spec_witness :
    observe [5, 0, 0, 0, 0, 0, 0, 0, 0, 0] 3 5 = (true, [5, 0, 0, 0, 0, 0, 0, 0, 0, 0], 3) :=
  (observe_spec [5, 0, 0, 0, 0, 0, 0, 0, 0, 0] 3 5 (by decide)).2.1 (by decide)

/-- C6 counterexample: the catalog has 7 patterns (indices 0-6); with
selected index 7 the code's operation does not return the PatternNotFound
configuration error — the Rust method returns unit, so its embedded result
is Except.ok, never Except.error. -/
theorem apply_selected_pattern_no_error :
    apply_selected_pattern_result { initState with selected_pattern := 7 } ≠
      Except.error PatternNotFound.patternNotFound := by
  intro h
  exact Except.noConfusion h

/-- C6 (amended): apply_selected_pattern with an index outside the catalog
is a silent no-op: it produces no error value and leaves the whole state —
grid, generation counter, cycle history and counter — unchanged. -/
theorem apply_selected_pattern_out_of_range (s : GameState)
    (h : PATTERNS.length ≤ s.selected_pattern) :
    apply_selected_pattern s = s ∧ apply_selected_pattern_result s = Except.ok s := by
  have hnone : PATTERNS[s.selected_pattern]? = none := by
    rw [List.getElem?_eq_none h]
  have h1 : apply_selected_pattern s = s := by
    unfold apply_selected_pattern
    rw [hnone]
  exact ⟨h1, by rw [apply_selected_pattern_result, h1]⟩

/-- Witness for C6 (amended) at index 7. -/
theorem apply_selected_pattern_out_of_range_witness :
    apply_selected_pattern { initState with selected_pattern := 7 } =
      { initState with selected_pattern := 7 } :=
  (apply_selected_pattern_out_of_range { initState with selected_pattern := 7 } (by decide)).1

/-- C8: toggle_cell on a coordinate outside the active range 1..50 (in
particular any border coordinate) leaves the state unchanged, and toggling
the same in-range coordinate twice restores the original state. -/
theorem toggle_cell_noop_and_involutive (s : GameState) (row col : Nat) :
    (¬(1 ≤ row ∧ row ≤ 50 ∧ 1 ≤ col ∧ col ≤ 50) → toggle_cell_async row col s = s) ∧
    ((1 ≤ row ∧ row ≤ 50 ∧ 1 ≤ col ∧ col ≤ 50) →
      toggle_cell_async row col (toggle_cell_async row col s) = s) := by
  constructor
  · intro h
    unfold toggle_cell_async
    rw [if_neg h]
  · intro h
    unfold toggle_cell_async
    simp only [if_pos h]
    have hg : updateCell (updateCell s.grid row col (! s.grid row col)) row col
        (! updateCell s.grid row col (! s.grid row col) row col) = s.grid := by
      funext i j
      by_cases hij : i = row ∧ j = col
      · rcases hij with ⟨h1, h2⟩
        subst h1; subst h2
        rw [updateCell_same, updateCell_same, Bool.not_not]
      · rw [updateCell_other _ _ _ _ _ _ hij, updateCell_other _ _ _ _ _ _ hij]
    rw [hg]

/-- Witness for C8: a border coordinate is a no-op and an in-range double
toggle restores the fresh state. -/
theorem toggle_cell_noop_and_involutive_witness :
    toggle_cell_async 0 5 initState = initState ∧
      toggle_cell_async 3 4 (toggle_cell_async 3 4 initState) = initState :=
  ⟨(toggle_cell_noop_and_involutive initState 0 5).1 (by decide),
   (toggle_cell_noop_and_involutive initState 3 4).2 (by decide)⟩

/-- C9: the public random reseeding takes no seed argument — it seeds
apply_random_pattern with the current generation counter, so two states
with equal counters get identical grids, and afterwards the generation
counter is 0 and the cycle history and counter are reset. -/
theorem apply_random_pattern_async_spec (hashU32 : Nat → Nat) (s1 s2 : GameState)
    (h : s1.generation = s2.generation) :
    (apply_random_pattern_async hashU32 s1).grid = (apply_random_pattern_async hashU32 s2).grid ∧
    (apply_random_pattern_async hashU32 s1).grid = apply_random_pattern hashU32 s1.generation ∧
    (apply_random_pattern_async hashU32 s1).generation = 0 ∧
    (apply_random_pattern_async hashU32 s1).grid_history = List.replicate 10 0 ∧
    (apply_random_pattern_async hashU32 s1).history_count = 0 := by
  refine ⟨?_, rfl, rfl, rfl, rfl⟩
  show apply_random_pattern hashU32 s1.generation = apply_random_pattern hashU32 s2.generation
  rw [h]

/-- Witness for C9: two distinct fresh states with generation 0 receive
the same random grid. -/
theorem apply_random_pattern_async_spec_witness :
    (apply_random_pattern_async (fun _ => 0) initState).grid =
      (apply_random_pattern_async (fun _ => 0) { initState with is_running := true }).grid :=
  (apply_random_pattern_async_spec (fun _ => 0) initState
    { initState with is_running := true } rfl).1

/-- C10: every reset fills the 10-entry history with the value 0 rather
than emptying it, so immediately after a reset check_for_cycle reports a
cycle — without inserting anything — whenever the grid hash is 0. -/
theorem reset_history_zero_filled (hashG : TGrid → Nat) (hashU32 : Nat → Nat) (s : GameState) :
    initState.grid_history = List.replicate 10 0 ∧
    (clear_grid s).grid_history = List.replicate 10 0 ∧
    (apply_random_pattern_async hashU32 s).grid_history = List.replicate 10 0 ∧
    (s.selected_pattern < PATTERNS.length →
      (apply_selected_pattern s).grid_history = List.replicate 10 0) ∧
    (s.grid_history = List.replicate 10 0 → hashG s.grid = 0 →
      check_for_cycle hashG s = (true, s)) := by
  refine ⟨rfl, rfl, rfl, ?_, ?_⟩
  · intro hlt
    unfold apply_selected_pattern
    rw [List.getElem?_eq_getElem hlt]
  · intro h1 h2
    unfold check_for_cycle observe
    rw [h1, h2]
    have hc : (List.replicate 10 (0 : Nat)).contains 0 = true := by decide
    rw [if_pos hc]
    dsimp only
    rw [← h1]

/-- Witness for C10: right after clear_grid, the zero hash is reported as
a cycle with the state unchanged. -/
theorem reset_history_zero_filled_witness :
    check_for_cycle (fun _ => 0) (clear_grid initState) = (true, clear_grid initState) :=
  (reset_history_zero_filled (fun _ => 0) (fun _ => 0) (clear_grid initState)).2.2.2.2 rfl rfl

/-! ### The blinker oscillation and its detection -/

theorem apply_pattern_blinker_bounded : ∀ r < 52, ∀ c < 52,
    apply_pattern [(25, 24), (25, 25), (25, 26)] r c = blinkerHorizontal r c := by decide

theorem apply_pattern_blinker :
    apply_pattern [(25, 24), (25, 25), (25, 26)] = blinkerHorizontal := by
  funext r c
  by_cases hb : r < 52 ∧ c < 52
  · exact apply_pattern_blinker_bounded r hb.1 c hb.2
  · rw [apply_pattern_apply, if_neg (fun hx => absurd hx.2 (by omega))]
    symm
    simp only [blinkerHorizontal, decide_eq_false_iff_not]
    omega

theorem step_blinkerH_bounded : ∀ r < 52, ∀ c < 52,
    (if 1 ≤ r ∧ r ≤ 50 ∧ 1 ≤ c ∧ c ≤ 50 then create_cell_function r c blinkerHorizontal
     else false) = blinkerVertical r c := by decide

theorem step_blinkerH : update_generation_coro blinkerHorizontal = blinkerVertical := by
  funext r c
  rw [update_generation_coro_apply]
  by_cases hb : r < 52 ∧ c < 52
  · exact step_blinkerH_bounded r hb.1 c hb.2
  · rw [if_neg (by omega)]
    symm
    simp only [blinkerVertical, decide_eq_false_iff_not]
    omega

theorem step_blinkerV_bounded : ∀ r < 52, ∀ c < 52,
    (if 1 ≤ r ∧ r ≤ 50 ∧ 1 ≤ c ∧ c ≤ 50 then create_cell_function r c blinkerVertical
     else false) = blinkerHorizontal r c := by decide

theorem step_blinkerV : update_generation_coro blinkerVertical = blinkerHorizontal := by
  funext r c
  rw [update_generation_coro_apply]
  by_cases hb : r < 52 ∧ c < 52
  · exact step_blinkerV_bounded r hb.1 c hb.2
  · rw [if_neg (by omega)]
    symm
    simp only [blinkerHorizontal, decide_eq_false_iff_not]
    omega

theorem blinkerSeeded_eq :
    blinkerSeeded =
      { grid := blinkerHorizontal, is_running := false, generation := 0,
        selected_pattern := 1, grid_history := List.replicate 10 0, history_count := 0 } := by
  have h : blinkerSeeded =
      { grid := apply_pattern [(25, 24), (25, 25), (25, 26)], is_running := false,
        generation := 0, selected_pattern := 1, grid_history := List.replicate 10 0,
        history_count := 0 } := rfl
  rw [h, apply_pattern_blinker]

/-- A tick whose committed grid's hash is already in the history reports
the cycle, keeps history and counter, and pauses the run. -/
theorem tick_detects (hashG : TGrid → Nat) (s : GameState)
    (h : s.grid_history.contains (hashG (update_generation_coro s.grid)) = true) :
    update_generation_checked hashG s =
      (true, { s with grid := update_generation_coro s.grid,
                      generation := s.generation + 1,
                      is_running := false }) := by
  unfold update_generation_checked check_for_cycle observe
  dsimp only
  rw [if_pos h]
  rfl

/-- A tick whose committed grid's hash is new inserts it at the circular
cursor and continues. -/
theorem tick_no_cycle (hashG : TGrid → Nat) (s : GameState)
    (h : s.grid_history.contains (hashG (update_generation_coro s.grid)) = false) :
    update_generation_checked hashG s =
      (false,
        { s with grid := update_generation_coro s.grid,
                 generation := s.generation + 1,
                 grid_history := s.grid_history.set (s.history_count % 10)
                   (hashG (update_generation_coro s.grid)),
                 history_count := s.history_count + 1 }) := by
  unfold update_generation_checked check_for_cycle observe
  dsimp only
  have hn : ¬(s.grid_history.contains (hashG (update_generation_coro s.grid)) = true) := by
    rw [h]
    exact Bool.false_ne_true
  rw [if_neg hn]
  rfl

/-- C7: the seeded Blinker is the horizontal triple at row 25, columns
24-26; one tick yields the vertical blinker (rows 24-26, column 25), a
second tick restores the horizontal one, and — whatever the grid hash —
check_for_cycle fires within 10 ticks of seeding. -/
theorem blinker_oscillation_detected :
    (∀ r c, blinkerSeeded.grid r c = blinkerHorizontal r c) ∧
    (∀ r c, update_generation_coro blinkerSeeded.grid r c = blinkerVertical r c) ∧
    (∀ r c, update_generation_coro (update_generation_coro blinkerSeeded.grid) r c =
      blinkerHorizontal r c) ∧
    (∀ hashG : TGrid → Nat, ∃ k, 1 ≤ k ∧ k ≤ 10 ∧
      (update_generation_checked hashG (updateIter hashG (k - 1) blinkerSeeded)).1 = true) := by
  refine ⟨?_, ?_, ?_, ?_⟩
  · intro r c
    rw [blinkerSeeded_eq]
  · intro r c
    rw [blinkerSeeded_eq]
    show update_generation_coro blinkerHorizontal r c = blinkerVertical r c
    rw [step_blinkerH]
  · intro r c
    rw [blinkerSeeded_eq]
    show update_generation_coro (update_generation_coro blinkerHorizontal) r c =
      blinkerHorizontal r c
    rw [step_blinkerH, step_blinkerV]
  · intro hashG
    rw [blinkerSeeded_eq]
    cases hA : (List.replicate 10 0).contains (hashG blinkerVertical) with
    | true =>
      refine ⟨1, le_refl 1, by omega, ?_⟩
      rw [tick_detects hashG _ (by
        show (List.replicate 10 0).contains (hashG (update_generation_coro blinkerHorizontal)) =
          true
        rw [step_blinkerH]
        exact hA)]
    | false =>
      have h1 : update_generation hashG
          { grid := blinkerHorizontal, is_running := false, generation := 0,
            selected_pattern := 1, grid_history := List.replicate 10 0, history_count := 0 } =
          { grid := blinkerVertical, is_running := false, generation := 1,
            selected_pattern := 1,
            grid_history := (List.replicate 10 0).set 0 (hashG blinkerVertical),
            history_count := 1 } := by
        unfold update_generation
        rw [tick_no_cycle hashG _ (by
          show (List.replicate 10 0).contains
              (hashG (update_generation_coro blinkerHorizontal)) = false
          rw [step_blinkerH]
          exact hA)]
        rw [step_blinkerH]
        rfl
      cases hB : ((List.replicate 10 0).set 0 (hashG blinkerVertical)).contains
          (hashG blinkerHorizontal) with
      | true =>
        refine ⟨2, by omega, by omega, ?_⟩
        show (update_generation_checked hashG (updateIter hashG 1 _)).1 = true
        rw [show ∀ s, updateIter hashG 1 s = update_generation hashG s from fun s => rfl, h1]
        rw [tick_detects hashG _ (by
          show ((List.replicate 10 0).set 0 (hashG blinkerVertical)).contains
              (hashG (update_generation_coro blinkerVertical)) = true
          rw [step_blinkerV]
          exact hB)]
      | false =>
        have h2 : update_generation hashG
            { grid := blinkerVertical, is_running := false, generation := 1,
              selected_pattern := 1,
              grid_history := (List.replicate 10 0).set 0 (hashG blinkerVertical),
              history_count := 1 } =
            { grid := blinkerHorizontal, is_running := false, generation := 2,
              selected_pattern := 1,
              grid_history := ((List.replicate 10 0).set 0 (hashG blinkerVertical)).set 1
                (hashG blinkerHorizontal),
              history_count := 2 } := by
          unfold update_generation
          rw [tick_no_cycle hashG _ (by
            show ((List.replicate 10 0).set 0 (hashG blinkerVertical)).contains
                (hashG (update_generation_coro blinkerVertical)) = false
            rw [step_blinkerV]
            exact hB)]
          rw [step_blinkerV]
          rfl
        refine ⟨3, by omega, by omega, ?_⟩
        show (update_generation_checked hashG (updateIter hashG 2 _)).1 = true
        rw [show ∀ s, updateIter hashG 2 s =
            update_generation hashG (update_generation hashG s) from fun s => rfl, h1, h2]
        rw [tick_detects hashG _ (by
          show (((List.replicate 10 0).set 0 (hashG blinkerVertical)).set 1
              (hashG blinkerHorizontal)).contains
              (hashG (update_generation_coro blinkerHorizontal)) = true
          rw [step_blinkerH]
          apply (contains_iff_mem _ _).mpr
          show hashG blinkerVertical ∈
            hashG blinkerVertical :: hashG blinkerHorizontal :: List.replicate 8 0
          exact List.mem_cons_self _ _)]

end ConwayCoro
